import Mathlib

/-!
Verification of the content-audit scoring engine.

Shallow embedding of the analyzer functions of the edge function
(`calculateSEOScore`, `calculateSERPScore`, `calculateAEOScore`,
`calculateHumanizationScore`, `calculateDifferentiationScore` and the
`serve` request handler).  Conventions:

* A JavaScript string is modelled as `List Char`; regular-expression
  operations of the source are translated into explicit scanners over
  the character list (each scanner's doc comment names the regex it
  embeds).
* JavaScript numbers are modelled by `JSNum`: an exact rational together
  with the IEEE special values `NaN`, `Infinity`, `-Infinity` that the
  source can produce by dividing by zero.  Decimal literals of the
  source (`206.835`, `1.015`, `0.2`) are carried exactly; double
  rounding error is not modelled (no check of the source compares
  values closer to a threshold than double precision error).
* The external AI call of the two fallible analyzers is modelled by an
  `Option (List Char)` parameter: `some a` is a successful call whose
  reply text is `a`; `none` is a thrown error or non-ok response status.
  `Date` reads (`getFullYear`, `toISOString`) are likewise parameters.
* `Math.sqrt` (used only for `stdDev`, compared against `5` and shown
  in a metric) is eliminated: `stdDev < 5 ↔ variance < 25` for the
  nonnegative variance, and the metric field keeps the radicand.
-/

/-- The JavaScript number values the scoring engine can produce:
exact rationals plus `NaN` and the two infinities. -/
inductive JSNum where
  | nan : JSNum
  | inf : JSNum
  | ninf : JSNum
  | num : ℚ → JSNum
deriving DecidableEq, Repr

/-- The rational of a natural number, in normalized `mkRat` form (all
rational arithmetic below is written through `mkRat` so that every
value stays in the kernel-normalizing fragment of `ℚ`). -/
def qOfNat (n : ℕ) : ℚ := mkRat n 1

/-- Rational multiplication, written through `mkRat`. -/
def qMul (a b : ℚ) : ℚ := mkRat (a.num * b.num) (a.den * b.den)

/-- Rational addition, written through `mkRat`. -/
def qAdd (a b : ℚ) : ℚ := mkRat (a.num * b.den + b.num * a.den) (a.den * b.den)

/-- Rational subtraction, written through `mkRat`. -/
def qSub (a b : ℚ) : ℚ := mkRat (a.num * b.den - b.num * a.den) (a.den * b.den)

/-- Rational division `a / b` for `b ≠ 0`, written through `mkRat`
(the sign of `b` moves into the numerator since `mkRat` takes a natural
denominator). -/
def qDiv (a b : ℚ) : ℚ :=
  if 0 ≤ b.num then mkRat (a.num * b.den) (a.den * b.num.toNat)
  else mkRat (-(a.num * b.den)) (a.den * (-b.num).toNat)

/-- JS division `a / b` of two rationals: division by zero produces
`NaN` (for `0/0`) or a signed infinity, exactly as IEEE doubles do. -/
def jsDiv (a b : ℚ) : JSNum :=
  if b = 0 then (if a = 0 then .nan else if 0 < a then .inf else .ninf)
  else .num (qDiv a b)

/-- `x < q` on JS numbers: comparisons with `NaN` are false. -/
def JSNum.ltQ : JSNum → ℚ → Bool
  | .nan, _ => false
  | .inf, _ => false
  | .ninf, _ => true
  | .num a, q => decide (a < q)

/-- `x > q` on JS numbers: comparisons with `NaN` are false. -/
def JSNum.gtQ : JSNum → ℚ → Bool
  | .nan, _ => false
  | .inf, _ => true
  | .ninf, _ => false
  | .num a, q => decide (q < a)

/-- Multiplication of a JS number by a positive rational constant
(used with `100` and `1.015`; both positive, so signs are preserved). -/
def JSNum.scaleQ (c : ℚ) : JSNum → JSNum
  | .nan => .nan
  | .inf => .inf
  | .ninf => .ninf
  | .num q => .num (qMul c q)

/-- `c - x` for a rational constant `c` and a JS number `x`. -/
def JSNum.subFromQ (c : ℚ) : JSNum → JSNum
  | .nan => .nan
  | .inf => .ninf
  | .ninf => .inf
  | .num q => .num (qSub c q)

/-- The regex class `\w` = `[A-Za-z0-9_]`. -/
def isWordChar (c : Char) : Bool :=
  decide ((65 ≤ c.toNat ∧ c.toNat ≤ 90) ∨ (97 ≤ c.toNat ∧ c.toNat ≤ 122) ∨
    (48 ≤ c.toNat ∧ c.toNat ≤ 57) ∨ c.toNat = 95)

/-- The regex class `\d` = `[0-9]`. -/
def isDigitChar (c : Char) : Bool :=
  decide (48 ≤ c.toNat ∧ c.toNat ≤ 57)

/-- The JS LineTerminator set: LF, CR, LS, PS.  These are the characters
a regex `.` (no `s` flag) does not match, and the positions after which
a multiline `^` matches. -/
def isLineTermChar (c : Char) : Bool :=
  decide (c.toNat = 10 ∨ c.toNat = 13 ∨ c.toNat = 8232 ∨ c.toNat = 8233)

/-- The JS `\s` class (WhiteSpace ∪ LineTerminator): tab, LF, VT, FF,
CR, space, NBSP, Ogham space, the en/em spaces, LS, PS, NNBSP, MMSP,
ideographic space and the BOM. -/
def isJsSpace (c : Char) : Bool :=
  decide (c.toNat = 9 ∨ c.toNat = 10 ∨ c.toNat = 11 ∨ c.toNat = 12 ∨
    c.toNat = 13 ∨ c.toNat = 32 ∨ c.toNat = 160 ∨ c.toNat = 5760 ∨
    (8192 ≤ c.toNat ∧ c.toNat ≤ 8202) ∨ c.toNat = 8232 ∨ c.toNat = 8233 ∨
    c.toNat = 8239 ∨ c.toNat = 8287 ∨ c.toNat = 12288 ∨ c.toNat = 65279)

/-- `String.prototype.toLowerCase`, restricted to ASCII (every pattern
the source lowercases against is ASCII; full Unicode case mapping is
not modelled). -/
def toLowerJS (c : Char) : Char :=
  if 65 ≤ c.toNat ∧ c.toNat ≤ 90 then Char.ofNat (c.toNat + 32) else c

/-- Lowercase a whole string. -/
def lowerStr (l : List Char) : List Char := l.map toLowerJS

/-- Split a list at every element satisfying `p` (the separators are
dropped); the JS `split` on a single-character-class regex before
merging of adjacent separators.  `splitP p [] = [[]]` like JS
`"".split`. -/
def splitP (p : Char → Bool) : List Char → List (List Char)
  | [] => [[]]
  | c :: r =>
    if p c then [] :: splitP p r
    else
      match splitP p r with
      | [] => [[c]]
      | piece :: rest => (c :: piece) :: rest

/-- Drop the empty pieces strictly between the first and last piece:
together with `splitP` this gives JS `split` on a regex `[class]+`,
which merges adjacent separators but keeps empty edge pieces. -/
def jsSplitTail : List (List Char) → List (List Char)
  | [] => []
  | [x] => [x]
  | x :: xs => if x = [] then jsSplitTail xs else x :: jsSplitTail xs

/-- JS `str.split(/[class]+/)` for a character class given by `p`. -/
def jsSplitRuns (p : Char → Bool) (l : List Char) : List (List Char) :=
  match splitP p l with
  | [] => []
  | x :: xs => x :: jsSplitTail xs

/-- `lit` is a prefix of `l` (character-exact). -/
def litAt (lit l : List Char) : Bool :=
  match lit, l with
  | [], _ => true
  | _ :: _, [] => false
  | a :: la, b :: lb => a = b && litAt la lb

/-- `lit` occurs somewhere in `l`: the test of a regex that is a plain
literal (no anchors, no classes). -/
def containsSub (lit : List Char) : List Char → Bool
  | [] => litAt lit []
  | c :: r => litAt lit (c :: r) || containsSub lit r

/-- A word boundary holds before the current position given the
preceding character (`none` = start of input). -/
def prevNonWord : Option Char → Bool
  | none => true
  | some c => !isWordChar c

/-- A word boundary holds at the start of `l` (`[]` = end of input). -/
def headNonWord : List Char → Bool
  | [] => true
  | c :: _ => !isWordChar c

/-- Scanner for `\b lit \b`: an occurrence of `lit` with word
boundaries on both sides (the first and last characters of every
literal used are word characters). -/
def boundedFrom (lit : List Char) : Option Char → List Char → Bool
  | _, [] => false
  | prev, c :: r =>
    (prevNonWord prev && litAt lit (c :: r) && headNonWord ((c :: r).drop lit.length)) ||
      boundedFrom lit (some c) r

/-- The test of a regex `/\b lit \b/` against `l`. -/
def containsBounded (lit l : List Char) : Bool := boundedFrom lit none l

/-- `content.match(/\b\w+\b/g) || []`: the maximal runs of word
characters (a maximal `\w` run always has word boundaries at both
ends). -/
def wordRuns (l : List Char) : List (List Char) :=
  (splitP (fun c => !isWordChar c) l).filter (fun w => w ≠ [])

/-- `String.prototype.trim` (strips JS whitespace at both ends). -/
def trimJS (l : List Char) : List Char :=
  ((l.dropWhile isJsSpace).reverse.dropWhile isJsSpace).reverse

/-- `content.split(/[.!?]+/).filter(s => s.trim().length > 0)`.
Splitting on the one-character class and filtering is equivalent to
splitting on maximal runs and filtering, because the extra pieces
produced between adjacent separators are empty and are filtered out. -/
def sentencesOf (l : List Char) : List (List Char) :=
  (splitP (fun c => c == '.' || c == '!' || c == '?') l).filter
    (fun s => trimJS s ≠ [])

/-- Count the line-start positions of `l` whose suffix satisfies `p`;
`atStart` records whether the current position is a line start (start
of input or preceded by a LineTerminator).  Models counting the
matches of a multiline-anchored regex `/^pat/gm` whose matches are too
short to overlap the next line start. -/
def countLineStart (p : List Char → Bool) (atStart : Bool) : List Char → ℕ
  | [] => 0
  | c :: r =>
    (if atStart && p (c :: r) then 1 else 0) + countLineStart p (isLineTermChar c) r

/-- The suffix test of `/^#\s/m`: `#` followed by one `\s`. -/
def h1Pat : List Char → Bool
  | '#' :: c :: _ => isJsSpace c
  | _ => false

/-- The suffix test of `/^##\s/m`: `##` followed by one `\s`. -/
def h2Pat : List Char → Bool
  | '#' :: '#' :: c :: _ => isJsSpace c
  | _ => false

/-- The suffix test of `/^[\-\*\d+\.]\s/m`: one of `-`, `*`, a digit,
`+`, `.` followed by one `\s`. -/
def listPat : List Char → Bool
  | c :: d :: _ =>
    (c == '-' || c == '*' || c == '+' || c == '.' || isDigitChar c) && isJsSpace d
  | _ => false

/-- After `](`, find the first `)` not separated by a LineTerminator
(the lazy `.*?\)` of the link regex); returns the rest after it. -/
def linkAfterBracket : List Char → Option (List Char)
  | [] => none
  | c :: r =>
    if c == ')' then some r
    else if isLineTermChar c then none
    else linkAfterBracket r

/-- After a `[`, scan for the first `](` (the lazy `.*?\]\(`), then the
closing `)`.  All consumed characters must be `.`-matchable, i.e. no
LineTerminator.  Returns the rest after the whole match. -/
def linkTail : List Char → Option (List Char)
  | [] => none
  | ']' :: '(' :: r => linkAfterBracket r
  | c :: r => if isLineTermChar c then none else linkTail r

/-- Count the non-overlapping matches of `/\[.*?\]\(.*?\)/g`, scanning
left to right and resuming after each match; `fuel` bounds the
recursion (call with the length of the list). -/
def countLinksAux : ℕ → List Char → ℕ
  | _, [] => 0
  | 0, _ => 0
  | fuel + 1, c :: r =>
    if c == '[' then
      match linkTail r with
      | some rest => 1 + countLinksAux fuel rest
      | none => countLinksAux fuel r
    else countLinksAux fuel r

/-- `(content.match(/\[.*?\]\(.*?\)/g) || []).length`. -/
def countLinks (l : List Char) : ℕ := countLinksAux l.length l

/-- Try the passive-voice pattern
`(was|were|been|being)\s+\w+ed\b` at the head of the (lowercased)
list; returns the match length.  The `\w+ed\b` part matches exactly
the maximal word run when it has length ≥ 3 and ends in `ed`. -/
def passAt (l : List Char) : Option ℕ :=
  let kwLen : Option ℕ :=
    if litAt ['w','a','s'] l then some 3
    else if litAt ['w','e','r','e'] l then some 4
    else if litAt ['b','e','e','n'] l then some 4
    else if litAt ['b','e','i','n','g'] l then some 5
    else none
  match kwLen with
  | none => none
  | some k =>
    let r := l.drop k
    let ws := r.takeWhile isJsSpace
    if ws = [] then none
    else
      let r2 := r.drop ws.length
      let run := r2.takeWhile isWordChar
      if 3 ≤ run.length && litAt ['d','e'] run.reverse then
        some (k + ws.length + run.length)
      else none

/-- Count the matches of `/\b(was|were|been|being)\s+\w+ed\b/gi` over
the lowercased input, scanning left to right with word-boundary checks
and resuming after each match. -/
def passCountAux : ℕ → Option Char → List Char → ℕ
  | _, _, [] => 0
  | 0, _, _ => 0
  | fuel + 1, prev, c :: r =>
    if prevNonWord prev then
      match passAt (c :: r) with
      | some len => 1 + passCountAux fuel (some 'd') ((c :: r).drop len)
      | none => passCountAux fuel (some c) r
    else passCountAux fuel (some c) r

/-- `(content.match(/\b(was|were|been|being)\s+\w+ed\b/gi) || []).length`. -/
def passiveCountOf (l : List Char) : ℕ :=
  passCountAux (lowerStr l).length none (lowerStr l)

/-- The tail of `/\d+%|\d+\s*(percent|times|years?|months?)/` after its
last digit: either `%` immediately, or optional whitespace then one of
the unit words (the optional plural `s` cannot affect a pure test). -/
def numTail (r : List Char) : Bool :=
  (match r with
   | '%' :: _ => true
   | _ => false) ||
  (let r2 := r.dropWhile isJsSpace
   litAt ['p','e','r','c','e','n','t'] r2 || litAt ['t','i','m','e','s'] r2 ||
     litAt ['y','e','a','r'] r2 || litAt ['m','o','n','t','h'] r2)

/-- The test of `/\d+%|\d+\s*(percent|times|years?|months?)/`
(case-sensitive, so it runs over the raw content). -/
def numbersFrom : List Char → Bool
  | [] => false
  | c :: r => (isDigitChar c && numTail r) || numbersFrom r

/-- The test of the `step \d` alternative of the how-to regex over the
lowercased content: literal `step `, then a digit. -/
def stepFrom : List Char → Bool
  | [] => false
  | c :: r =>
    (litAt ['s','t','e','p',' '] (c :: r) &&
      (match (c :: r).drop 5 with
       | d :: _ => isDigitChar d
       | [] => false)) ||
    stepFrom r

/-- The test of the `real.world` alternative of the examples regex
(lowercased content): `real`, one non-LineTerminator character,
`world`. -/
def realWorldFrom : List Char → Bool
  | [] => false
  | c :: r =>
    (litAt ['r','e','a','l'] (c :: r) &&
      (match (c :: r).drop 4 with
       | d :: rest => !isLineTermChar d && litAt ['w','o','r','l','d'] rest
       | [] => false)) ||
    realWorldFrom r

/-- After `I`/`we`: `\s+` then one of the discovery verbs as a full
word (`\b` after the verb forces it to be the entire word run). -/
def storyTail (r : List Char) : Bool :=
  let ws := r.takeWhile isJsSpace
  if ws = [] then false
  else
    let run := (r.drop ws.length).takeWhile isWordChar
    run = ['r','e','a','l','i','z','e','d'] ||
      run = ['d','i','s','c','o','v','e','r','e','d'] ||
      run = ['f','o','u','n','d'] || run = ['l','e','a','r','n','e','d']

/-- The test of `/\b(I|we)\s+(realized|discovered|found|learned)\b/i`
over the lowercased content. -/
def storiesFrom : Option Char → List Char → Bool
  | _, [] => false
  | prev, c :: r =>
    (prevNonWord prev &&
      ((litAt ['i'] (c :: r) && storyTail ((c :: r).drop 1)) ||
        (litAt ['w','e'] (c :: r) && storyTail ((c :: r).drop 2)))) ||
    storiesFrom (some c) r

/-- Insert-or-increment a key in an association list, preserving the
insertion order of first occurrences (the JS object used as a counter;
the reordering JS applies to integer-like keys is not modelled — it
can only affect which of several equally frequent words is reported as
`primaryKeyword`, never a score). -/
def bump (k : List Char) : List (List Char × ℕ) → List (List Char × ℕ)
  | [] => [(k, 1)]
  | (k', n) :: rest => if k' = k then (k', n + 1) :: rest else (k', n) :: bump k rest

/-- Stable insertion: keep `y` before `x` whenever `y.2 ≥ x.2`. -/
def insertDesc (x : List Char × ℕ) : List (List Char × ℕ) → List (List Char × ℕ)
  | [] => [x]
  | y :: ys => if x.2 ≤ y.2 then y :: insertDesc x ys else x :: y :: ys

/-- Stable sort, descending by count: the JS
`sort((a, b) => b[1] - a[1])` (stable in the engine the source runs
on). -/
def sortDesc (l : List (List Char × ℕ)) : List (List Char × ℕ) :=
  l.foldr insertDesc []

/-- `Math.max(...values)`: `-Infinity` on an empty list. -/
def jsMaxNat : List ℕ → JSNum
  | [] => .ninf
  | x :: xs => .num (qOfNat (xs.foldl (fun a b => max a b) x))

/-- Decimal digits of a natural number (JS template interpolation of an
integer-valued count). -/
def natToChars (n : ℕ) : List Char := Nat.toDigits 10 n

/-- Zero-pad on the left to the given length. -/
def padZeros (len : ℕ) (s : List Char) : List Char :=
  List.replicate (len - s.length) '0' ++ s

/-- `toFixed d` for a nonnegative rational, rounding half-up (an exact
rational rendering of `Number.prototype.toFixed`; no claim depends on
a tie under double rounding). -/
def ratToFixedNN (d : ℕ) (q : ℚ) : List Char :=
  let m := ((qAdd (qMul q (qOfNat (10 ^ d))) (mkRat 1 2)).floor).toNat
  if d = 0 then natToChars m
  else
    let digits := padZeros (d + 1) (natToChars m)
    let k := digits.length - d
    digits.take k ++ '.' :: digits.drop k

/-- `x.toFixed(d)` on a JS number (`NaN.toFixed` is `"NaN"`). -/
def jsToFixed (d : ℕ) : JSNum → List Char
  | .nan => "NaN".data
  | .inf => "Infinity".data
  | .ninf => "-Infinity".data
  | .num q => if q < 0 then '-' :: ratToFixedNN d (-q) else ratToFixedNN d q

/-! ## The SEO analyzer (`calculateSEOScore`) -/

/-- `content.toLowerCase().match(/\b\w+\b/g) || []`. -/
def seoWords (content : List Char) : List (List Char) :=
  wordRuns (lowerStr content)

/-- The frequency table over words longer than 4 characters, in
first-occurrence order. -/
def seoWordFreq (content : List Char) : List (List Char × ℕ) :=
  (seoWords content).foldl (fun acc w => if w.length > 4 then bump w acc else acc) []

/-- `Object.entries(wordFreq).sort((a, b) => b[1] - a[1])`. -/
def seoSorted (content : List Char) : List (List Char × ℕ) :=
  sortDesc (seoWordFreq content)

/-- `sortedWords[0]?.[0] || "content"` (a counted word is a nonempty
run, so the `||` default only fires on the empty table). -/
def seoPrimaryKeyword (content : List Char) : List Char :=
  match seoSorted content with
  | [] => "content".data
  | (k, _) :: _ => k

/-- `sortedWords[0]?.[1] || 0`. -/
def seoKeywordCount (content : List Char) : ℕ :=
  match seoSorted content with
  | [] => 0
  | (_, n) :: _ => n

/-- `(keywordCount / words.length) * 100` — `NaN` when there are no
words. -/
def seoKeywordDensity (content : List Char) : JSNum :=
  (jsDiv (qOfNat (seoKeywordCount content))
    (qOfNat (seoWords content).length)).scaleQ (qOfNat 100)

/-- `words.length / sentences.length` — `NaN` on empty content. -/
def seoAvgWordsPerSentence (content : List Char) : JSNum :=
  jsDiv (qOfNat (seoWords content).length) (qOfNat (sentencesOf content).length)

/-- `206.835 - 1.015 * avgWordsPerSentence`. -/
def seoReadability (content : List Char) : JSNum :=
  JSNum.subFromQ (mkRat 206835 1000)
    ((seoAvgWordsPerSentence content).scaleQ (mkRat 1015 1000))

/-- `(content.match(/^#\s/gm) || []).length`. -/
def seoH1Count (content : List Char) : ℕ :=
  countLineStart h1Pat true content

/-- `(content.match(/^##\s/gm) || []).length`. -/
def seoH2Count (content : List Char) : ℕ :=
  countLineStart h2Pat true content

/-- Check 1: `keywordDensity < 1 || keywordDensity > 2.5`. -/
def seoDensityBad (content : List Char) : Bool :=
  (seoKeywordDensity content).ltQ 1 || (seoKeywordDensity content).gtQ (mkRat 5 2)

/-- Check 2: `readabilityScore < 60`. -/
def seoReadabilityLow (content : List Char) : Bool :=
  (seoReadability content).ltQ 60

/-- Check 3: `h1Count === 0`. -/
def seoNoH1 (content : List Char) : Bool := seoH1Count content == 0

/-- Check 4: `h2Count < 2`. -/
def seoFewH2 (content : List Char) : Bool := seoH2Count content < 2

/-- Check 5: `words.length < 300`. -/
def seoTooShort (content : List Char) : Bool := (seoWords content).length < 300

/-- Check 6: `linkCount < 2`. -/
def seoFewLinks (content : List Char) : Bool := countLinks content < 2

/-- The running `score` after the six sequential `score -= …` steps,
before the final `Math.max(0, score)`. -/
def seoRawScore (content : List Char) : ℤ :=
  100 - (if seoDensityBad content then 15 else 0)
      - (if seoReadabilityLow content then 10 else 0)
      - (if seoNoH1 content then 15 else 0)
      - (if seoFewH2 content then 10 else 0)
      - (if seoTooShort content then 20 else 0)
      - (if seoFewLinks content then 10 else 0)

/-- The `issues` list: one entry pushed per failing check, in source
order. -/
def seoIssues (content : List Char) : List (List Char) :=
  (if seoDensityBad content then
    ["Keyword density: ".data ++ jsToFixed 2 (seoKeywordDensity content) ++
      "% (Optimal: 1-2%)".data] else []) ++
  (if seoReadabilityLow content then
    ["Readability score: ".data ++ jsToFixed 0 (seoReadability content) ++
      " (Low)".data] else []) ++
  (if seoNoH1 content then ["Missing H1 header".data] else []) ++
  (if seoFewH2 content then ["Insufficient H2 headers".data] else []) ++
  (if seoTooShort content then
    ["Content too short: ".data ++ natToChars (seoWords content).length ++
      " words (Min: 300)".data] else []) ++
  (if seoFewLinks content then ["Few or no links detected".data] else [])

/-- The `recommendations` list before the `slice(0, 5)`. -/
def seoRecs (content : List Char) : List (List Char) :=
  (if seoDensityBad content then
    ["Adjust keyword density to 1-2% for better SEO".data] else []) ++
  (if seoReadabilityLow content then
    ["Simplify sentences for better readability".data] else []) ++
  (if seoNoH1 content then
    ["Add a clear H1 header with your primary keyword".data] else []) ++
  (if seoFewH2 content then
    ["Add more H2 headers to structure your content".data] else []) ++
  (if seoTooShort content then
    ["Expand content to at least 300 words".data] else []) ++
  (if seoFewLinks content then
    ["Add relevant internal and external links".data] else [])

/-- The number of failing checks of the SEO analyzer. -/
def seoFailedCount (content : List Char) : ℕ :=
  (if seoDensityBad content then 1 else 0) +
  (if seoReadabilityLow content then 1 else 0) +
  (if seoNoH1 content then 1 else 0) +
  (if seoFewH2 content then 1 else 0) +
  (if seoTooShort content then 1 else 0) +
  (if seoFewLinks content then 1 else 0)

/-- The `metrics` object of the SEO result (formatted as the source
formats it: `toFixed(2) + "%"`, `toFixed(0)`). -/
structure SEOMetrics where
  keywordDensity : List Char
  readabilityScore : List Char
  wordCount : ℕ
  primaryKeyword : List Char
deriving DecidableEq, Repr

/-- The object literal returned by `calculateSEOScore`. -/
structure SEOResult where
  score : ℤ
  issues : List (List Char)
  recommendations : List (List Char)
  metrics : SEOMetrics
deriving DecidableEq, Repr

/-- `calculateSEOScore` (part_002 lines 60–139). -/
def calculateSEOScore (content : List Char) : SEOResult :=
  { score := max 0 (seoRawScore content)
    issues := seoIssues content
    recommendations := (seoRecs content).take 5
    metrics :=
      { keywordDensity := jsToFixed 2 (seoKeywordDensity content) ++ "%".data
        readabilityScore := jsToFixed 0 (seoReadability content)
        wordCount := (seoWords content).length
        primaryKeyword := seoPrimaryKeyword content } }

/-! ## The AEO analyzer (`calculateAEOScore`) -/

/-- `/\bfaq\b|frequently asked|questions?:/i.test(content)`. -/
def aeoHasFAQ (content : List Char) : Bool :=
  containsBounded "faq".data (lowerStr content) ||
    containsSub "frequently asked".data (lowerStr content) ||
    containsSub "question:".data (lowerStr content) ||
    containsSub "questions:".data (lowerStr content)

/-- `(content.match(/^[\-\*\d+\.]\s/gm) || []).length`. -/
def aeoListCount (content : List Char) : ℕ :=
  countLineStart listPat true content

/-- `content.split(/\n\n+/)` with fuel: split on maximal runs of two or
more newlines (a single newline stays inside its piece). -/
def aeoSplitParas : ℕ → List Char → List Char → List (List Char)
  | _, acc, [] => [acc.reverse]
  | 0, acc, rest => [acc.reverse ++ rest]
  | fuel + 1, acc, c :: rest =>
    if c == '\n' then
      let run := rest.takeWhile (fun d => d == '\n')
      if 1 ≤ run.length then
        acc.reverse :: aeoSplitParas fuel [] (rest.drop run.length)
      else aeoSplitParas fuel (c :: acc) rest
    else aeoSplitParas fuel (c :: acc) rest

/-- `content.split(/\n\n+/).filter(p => p.trim().length > 0)`. -/
def aeoParagraphs (content : List Char) : List (List Char) :=
  (aeoSplitParas content.length [] content).filter (fun p => trimJS p ≠ [])

/-- `content.length / paragraphs.length` — `NaN` on content with no
nonblank paragraph. -/
def aeoAvgParagraphLength (content : List Char) : JSNum :=
  jsDiv (qOfNat content.length) (qOfNat (aeoParagraphs content).length)

/-- `/how to|step \d|first,|second,|finally/i.test(content)`. -/
def aeoHasHowTo (content : List Char) : Bool :=
  containsSub "how to".data (lowerStr content) ||
    stepFrom (lowerStr content) ||
    containsSub "first,".data (lowerStr content) ||
    containsSub "second,".data (lowerStr content) ||
    containsSub "finally".data (lowerStr content)

/-- `/is defined as|refers to|means that/i.test(content)`. -/
def aeoHasDefinitions (content : List Char) : Bool :=
  containsSub "is defined as".data (lowerStr content) ||
    containsSub "refers to".data (lowerStr content) ||
    containsSub "means that".data (lowerStr content)

/-- Check 1: `!hasFAQ`. -/
def aeoNoFAQ (content : List Char) : Bool := !aeoHasFAQ content

/-- Check 2: `listCount < 3`. -/
def aeoFewLists (content : List Char) : Bool := aeoListCount content < 3

/-- Check 3: `avgParagraphLength > 500`. -/
def aeoLongParas (content : List Char) : Bool :=
  (aeoAvgParagraphLength content).gtQ 500

/-- Check 4: `!hasHowTo`. -/
def aeoNoHowTo (content : List Char) : Bool := !aeoHasHowTo content

/-- Check 5: `!hasDefinitions`. -/
def aeoNoDefinitions (content : List Char) : Bool := !aeoHasDefinitions content

/-- The running score of the AEO analyzer before `Math.max(0, score)`. -/
def aeoRawScore (content : List Char) : ℤ :=
  100 - (if aeoNoFAQ content then 15 else 0)
      - (if aeoFewLists content then 10 else 0)
      - (if aeoLongParas content then 15 else 0)
      - (if aeoNoHowTo content then 10 else 0)
      - (if aeoNoDefinitions content then 10 else 0)

/-- The `issues` list of the AEO analyzer. -/
def aeoIssues (content : List Char) : List (List Char) :=
  (if aeoNoFAQ content then ["No FAQ section detected".data] else []) ++
  (if aeoFewLists content then ["Few structured lists".data] else []) ++
  (if aeoLongParas content then ["Paragraphs too long for AI parsing".data] else []) ++
  (if aeoNoHowTo content then ["No step-by-step instructions".data] else []) ++
  (if aeoNoDefinitions content then ["Lacks clear definitions".data] else [])

/-- The `recommendations` list of the AEO analyzer before `slice(0, 5)`. -/
def aeoRecs (content : List Char) : List (List Char) :=
  (if aeoNoFAQ content then
    ["Add FAQ section for better AI engine visibility".data] else []) ++
  (if aeoFewLists content then
    ["Use bullet points and numbered lists for clarity".data] else []) ++
  (if aeoLongParas content then
    ["Break content into shorter, scannable paragraphs".data] else []) ++
  (if aeoNoHowTo content then
    ["Add clear step-by-step instructions where applicable".data] else []) ++
  (if aeoNoDefinitions content then
    ["Include clear definitions of key terms".data] else [])

/-- The number of failing checks of the AEO analyzer. -/
def aeoFailedCount (content : List Char) : ℕ :=
  (if aeoNoFAQ content then 1 else 0) +
  (if aeoFewLists content then 1 else 0) +
  (if aeoLongParas content then 1 else 0) +
  (if aeoNoHowTo content then 1 else 0) +
  (if aeoNoDefinitions content then 1 else 0)

/-- The object literal returned by `calculateAEOScore`. -/
structure AEOResult where
  score : ℤ
  issues : List (List Char)
  recommendations : List (List Char)
deriving DecidableEq, Repr

/-- `calculateAEOScore` (part_002 lines 229–281). -/
def calculateAEOScore (content : List Char) : AEOResult :=
  { score := max 0 (aeoRawScore content)
    issues := aeoIssues content
    recommendations := (aeoRecs content).take 5 }

/-! ## The Humanization analyzer (`calculateHumanizationScore`) -/

/-- The sentence list shared with the SEO analyzer. -/
def humSentences (content : List Char) : List (List Char) :=
  sentencesOf content

/-- `sentences.map(s => s.split(/\s+/).length)` — the JS split keeps
empty edge pieces, so a sentence with leading whitespace counts one
more piece. -/
def humSentenceLengths (content : List Char) : List ℕ :=
  (humSentences content).map (fun s => (jsSplitRuns isJsSpace s).length)

/-- `sentenceLengths.reduce((a, b) => a + b, 0) / sentenceLengths.length`
— `NaN` when there are no sentences. -/
def humAvgLength (content : List Char) : JSNum :=
  jsDiv (((humSentenceLengths content).map qOfNat).foldl qAdd 0)
    (qOfNat (humSentenceLengths content).length)

/-- The population variance of the sentence lengths (`NaN` when there
are no sentences); the source compares `Math.sqrt(variance) < 5`,
which for the nonnegative variance is `variance < 25`. -/
def humVariance (content : List Char) : JSNum :=
  match humAvgLength content with
  | .num a =>
    jsDiv
      (((humSentenceLengths content).map
        (fun n => qMul (qSub (qOfNat n) a) (qSub (qOfNat n) a))).foldl qAdd 0)
      (qOfNat (humSentenceLengths content).length)
  | _ => .nan

/-- Check 1: `stdDev < 5`, i.e. `variance < 25` (`NaN` compares
false). -/
def humLowVariety (content : List Char) : Bool :=
  (humVariance content).ltQ 25

/-- `sentences.map(s => s.trim().split(/\s+/)[0]?.toLowerCase()).filter(Boolean)`:
the first whitespace-token of each trimmed sentence, lowercased
(sentences are trim-nonempty, so each token is nonempty). -/
def humStarters (content : List Char) : List (List Char) :=
  ((humSentences content).map
    (fun s => lowerStr ((trimJS s).takeWhile (fun c => !isJsSpace c)))).filter
    (fun w => w ≠ [])

/-- The starter frequency table. -/
def humStarterFreq (content : List Char) : List (List Char × ℕ) :=
  (humStarters content).foldl (fun acc w => bump w acc) []

/-- `Math.max(...Object.values(starterFreq))` — `-Infinity` when there
are no sentences. -/
def humMaxRepetition (content : List Char) : JSNum :=
  jsMaxNat ((humStarterFreq content).map (fun kv => kv.2))

/-- Check 2: `maxRepetition > sentences.length * 0.2`. -/
def humRepetitive (content : List Char) : Bool :=
  (humMaxRepetition content).gtQ
    (qMul (qOfNat (humSentences content).length) (mkRat 2 10))

/-- `(content.match(/\b(was|were|been|being)\s+\w+ed\b/gi) || []).length`. -/
def humPassiveCount (content : List Char) : ℕ := passiveCountOf content

/-- `(passiveCount / sentences.length) * 100` — `NaN` when there are no
sentences. -/
def humPassivePct (content : List Char) : JSNum :=
  (jsDiv (qOfNat (humPassiveCount content))
    (qOfNat (humSentences content).length)).scaleQ (qOfNat 100)

/-- Check 3: `passivePercentage > 20`. -/
def humHighPassive (content : List Char) : Bool :=
  (humPassivePct content).gtQ 20

/-- `aiPatterns.filter(pattern => pattern.test(content)).length` for the
four cliché regexes (the second literal contains an apostrophe). -/
def humAiPatternCount (content : List Char) : ℕ :=
  ([containsBounded "in conclusion".data (lowerStr content),
    containsBounded ("it".data ++ [Char.ofNat 39] ++ "s important to note".data)
      (lowerStr content),
    containsBounded "furthermore".data (lowerStr content),
    containsBounded "moreover".data (lowerStr content)]).countP id

/-- Check 4: `aiPatternCount > 2`. -/
def humAiPatterned (content : List Char) : Bool := humAiPatternCount content > 2

/-- `(content.match(/\b(I|we|you|us|our|your)\b/gi) || []).length`: the
bounded alternation of word characters matches exactly the maximal word
runs equal to one of the pronouns. -/
def humPronounCount (content : List Char) : ℕ :=
  ((wordRuns content).map lowerStr).countP
    (fun w => w = "i".data || w = "we".data || w = "you".data ||
      w = "us".data || w = "our".data || w = "your".data)

/-- Check 5: `personalPronouns.length < 5`. -/
def humFewPronouns (content : List Char) : Bool := humPronounCount content < 5

/-- The running score of the Humanization analyzer before
`Math.max(0, score)`. -/
def humRawScore (content : List Char) : ℤ :=
  100 - (if humLowVariety content then 20 else 0)
      - (if humRepetitive content then 15 else 0)
      - (if humHighPassive content then 15 else 0)
      - (if humAiPatterned content then 10 else 0)
      - (if humFewPronouns content then 10 else 0)

/-- The `issues` list of the Humanization analyzer. -/
def humIssues (content : List Char) : List (List Char) :=
  (if humLowVariety content then
    ["Low sentence variety (robotic pattern)".data] else []) ++
  (if humRepetitive content then ["Repetitive sentence starters".data] else []) ++
  (if humHighPassive content then
    ["High passive voice: ".data ++ jsToFixed 0 (humPassivePct content) ++
      "%".data] else []) ++
  (if humAiPatterned content then
    ["Common AI writing patterns detected".data] else []) ++
  (if humFewPronouns content then ["Lacks personal connection".data] else [])

/-- The `recommendations` list of the Humanization analyzer before
`slice(0, 5)`. -/
def humRecs (content : List Char) : List (List Char) :=
  (if humLowVariety content then
    ["Vary sentence lengths for more natural flow".data] else []) ++
  (if humRepetitive content then
    ["Diversify how you begin sentences".data] else []) ++
  (if humHighPassive content then
    ["Use more active voice for engaging writing".data] else []) ++
  (if humAiPatterned content then
    ["Use more conversational, human language".data] else []) ++
  (if humFewPronouns content then
    ["Use personal pronouns to connect with readers".data] else [])

/-- The number of failing checks of the Humanization analyzer. -/
def humFailedCount (content : List Char) : ℕ :=
  (if humLowVariety content then 1 else 0) +
  (if humRepetitive content then 1 else 0) +
  (if humHighPassive content then 1 else 0) +
  (if humAiPatterned content then 1 else 0) +
  (if humFewPronouns content then 1 else 0)

/-- The `metrics` object of the Humanization result.  The source
displays `stdDev.toFixed(1)` = `sqrt(variance).toFixed(1)`; the square
root of a rational is irrational in general, so the embedding keeps
the radicand — it is `NaN` exactly when the displayed standard
deviation is `NaN`. -/
structure HumanMetrics where
  sentenceVarietyVariance : JSNum
  passiveVoice : List Char
deriving DecidableEq, Repr

/-- The object literal returned by `calculateHumanizationScore`. -/
structure HumanResult where
  score : ℤ
  issues : List (List Char)
  recommendations : List (List Char)
  metrics : HumanMetrics
deriving DecidableEq, Repr

/-- `calculateHumanizationScore` (part_002 lines 283–360). -/
def calculateHumanizationScore (content : List Char) : HumanResult :=
  { score := max 0 (humRawScore content)
    issues := humIssues content
    recommendations := (humRecs content).take 5
    metrics :=
      { sentenceVarietyVariance := humVariance content
        passiveVoice := jsToFixed 0 (humPassivePct content) ++ "%".data } }

/-! ## The SERP analyzer (`calculateSERPScore`) -/

/-- `content.split(/\s+/).length` — the JS split keeps empty edge
pieces, so `"".split(/\s+/).length` is `1`. -/
def serpWordCount (content : List Char) : ℕ :=
  (jsSplitRuns isJsSpace content).length

/-- `/\d+%|\d+\s*(percent|times|years?|months?)/.test(content)`
(case-sensitive). -/
def serpHasNumbers (content : List Char) : Bool := numbersFrom content

/-- `/according to|research shows|study found|expert/i.test(content)`. -/
def serpHasCitations (content : List Char) : Bool :=
  containsSub "according to".data (lowerStr content) ||
    containsSub "research shows".data (lowerStr content) ||
    containsSub "study found".data (lowerStr content) ||
    containsSub "expert".data (lowerStr content)

/-- Check 1: `words < 1000`. -/
def serpShort (content : List Char) : Bool := serpWordCount content < 1000

/-- Check 2: `!hasNumbers`. -/
def serpNoNumbers (content : List Char) : Bool := !serpHasNumbers content

/-- Check 3: `!hasCitations`. -/
def serpNoCitations (content : List Char) : Bool := !serpHasCitations content

/-- The running score of the SERP analyzer (success path) before
`Math.max(0, score)`. -/
def serpRawScore (content : List Char) : ℤ :=
  100 - (if serpShort content then 20 else 0)
      - (if serpNoNumbers content then 15 else 0)
      - (if serpNoCitations content then 10 else 0)

/-- The issues pushed by the three local checks of the SERP analyzer. -/
def serpLocalIssues (content : List Char) : List (List Char) :=
  (if serpShort content then
    ["Word count: ".data ++ natToChars (serpWordCount content) ++
      " (Top rankings avg: 1500+)".data] else []) ++
  (if serpNoNumbers content then
    ["No statistics or data points found".data] else []) ++
  (if serpNoCitations content then
    ["No expert quotes or research citations".data] else [])

/-- The recommendations pushed by the three local checks of the SERP
analyzer. -/
def serpLocalRecs (content : List Char) : List (List Char) :=
  (if serpShort content then
    ["Expand content to 1500+ words to compete with top SERP results".data] else []) ++
  (if serpNoNumbers content then
    ["Add concrete statistics and data to support claims".data] else []) ++
  (if serpNoCitations content then
    ["Include expert opinions and research citations".data] else [])

/-- The number of failing local checks of the SERP analyzer. -/
def serpFailedCount (content : List Char) : ℕ :=
  (if serpShort content then 1 else 0) +
  (if serpNoNumbers content then 1 else 0) +
  (if serpNoCitations content then 1 else 0)

/-- `words > 1500 ? "Page 1 potential" : "Page 2-3"`. -/
def serpRank (content : List Char) : List Char :=
  if 1500 < serpWordCount content then "Page 1 potential".data else "Page 2-3".data

/-- The object literal returned by `calculateSERPScore`. -/
structure SERPResult where
  score : ℤ
  issues : List (List Char)
  recommendations : List (List Char)
  predictedRank : List Char
deriving DecidableEq, Repr

/-- `calculateSERPScore` (part_002 lines 141–227).  `aiReply` is the
outcome of the external chat-completion call: `some a` models a
successful call whose reply text is `a` (the local checks then run and
one AI commentary issue/recommendation pair is appended); `none`
models a thrown fetch error or a non-ok response status, caught by the
`catch` block, which returns the fixed fallback. -/
def calculateSERPScore (content : List Char) (aiReply : Option (List Char)) :
    SERPResult :=
  match aiReply with
  | some a =>
    { score := max 0 (serpRawScore content)
      issues := serpLocalIssues content ++ ["AI analysis: ".data ++ a.take 100]
      recommendations := (serpLocalRecs content ++
        ["Review AI-generated insights for detailed SERP optimization".data]).take 5
      predictedRank := serpRank content }
  | none =>
    { score := 50
      issues := ["Unable to perform full SERP analysis".data]
      recommendations := ["Ensure content is comprehensive and well-researched".data]
      predictedRank := "Unknown".data }

/-! ## The Differentiation analyzer (`calculateDifferentiationScore`) -/

/-- `/for example|for instance|case study|real.world/i.test(content)`. -/
def diffHasExamples (content : List Char) : Bool :=
  containsSub "for example".data (lowerStr content) ||
    containsSub "for instance".data (lowerStr content) ||
    containsSub "case study".data (lowerStr content) ||
    realWorldFrom (lowerStr content)

/-- `/\b(I|we)\s+(realized|discovered|found|learned)\b/i.test(content)`. -/
def diffHasStories (content : List Char) : Bool :=
  storiesFrom none (lowerStr content)

/-- `/\b(believe|think|opinion|perspective|view)\b/i.test(content)`. -/
def diffHasOpinion (content : List Char) : Bool :=
  containsBounded "believe".data (lowerStr content) ||
    containsBounded "think".data (lowerStr content) ||
    containsBounded "opinion".data (lowerStr content) ||
    containsBounded "perspective".data (lowerStr content) ||
    containsBounded "view".data (lowerStr content)

/-- `new RegExp(`\b${currentYear}\b`).test(content)` — `year` is the
value of `new Date().getFullYear()` at run time. -/
def diffHasRecentDate (year : ℕ) (content : List Char) : Bool :=
  containsBounded (natToChars year) content

/-- Check 1: `!hasExamples`. -/
def diffNoExamples (content : List Char) : Bool := !diffHasExamples content

/-- Check 2: `!hasStories`. -/
def diffNoStories (content : List Char) : Bool := !diffHasStories content

/-- Check 3: `!hasOpinion`. -/
def diffNoOpinion (content : List Char) : Bool := !diffHasOpinion content

/-- Check 4: `!hasRecentDate`. -/
def diffNoRecentDate (year : ℕ) (content : List Char) : Bool :=
  !diffHasRecentDate year content

/-- The running score of the Differentiation analyzer (success path)
before `Math.max(0, score)`. -/
def diffRawScore (year : ℕ) (content : List Char) : ℤ :=
  100 - (if diffNoExamples content then 20 else 0)
      - (if diffNoStories content then 15 else 0)
      - (if diffNoOpinion content then 15 else 0)
      - (if diffNoRecentDate year content then 10 else 0)

/-- The issues pushed by the four local checks of the Differentiation
analyzer. -/
def diffLocalIssues (year : ℕ) (content : List Char) : List (List Char) :=
  (if diffNoExamples content then
    ["No concrete examples or case studies".data] else []) ++
  (if diffNoStories content then
    ["Lacks personal stories or experiences".data] else []) ++
  (if diffNoOpinion content then ["No clear point of view".data] else []) ++
  (if diffNoRecentDate year content then
    ["Content may lack current information".data] else [])

/-- The recommendations pushed by the four local checks of the
Differentiation analyzer. -/
def diffLocalRecs (year : ℕ) (content : List Char) : List (List Char) :=
  (if diffNoExamples content then
    ["Add real-world examples and case studies".data] else []) ++
  (if diffNoStories content then
    ["Include personal anecdotes or experiences".data] else []) ++
  (if diffNoOpinion content then
    ["Express unique perspectives or opinions".data] else []) ++
  (if diffNoRecentDate year content then
    ["Update with recent data and trends".data] else [])

/-- The number of failing local checks of the Differentiation
analyzer. -/
def diffFailedCount (year : ℕ) (content : List Char) : ℕ :=
  (if diffNoExamples content then 1 else 0) +
  (if diffNoStories content then 1 else 0) +
  (if diffNoOpinion content then 1 else 0) +
  (if diffNoRecentDate year content then 1 else 0)

/-- The object literal returned by `calculateDifferentiationScore`. -/
structure DiffResult where
  score : ℤ
  issues : List (List Char)
  recommendations : List (List Char)
deriving DecidableEq, Repr

/-- `calculateDifferentiationScore` (part_002 lines 362–454), with the
external call and the current calendar year as parameters, as for
`calculateSERPScore`. -/
def calculateDifferentiationScore (content : List Char)
    (aiReply : Option (List Char)) (year : ℕ) : DiffResult :=
  match aiReply with
  | some a =>
    { score := max 0 (diffRawScore year content)
      issues := diffLocalIssues year content ++
        ["AI uniqueness check: ".data ++ a.take 100]
      recommendations := (diffLocalRecs year content ++
        ["Review AI analysis for specific differentiation opportunities".data]).take 5 }
  | none =>
    { score := 60
      issues := ["Unable to perform full uniqueness analysis".data]
      recommendations := ["Add unique examples, stories, and perspectives".data] }

/-! ## The request handler (`serve`) -/

/-- The aggregate record assembled by the handler (the
`AnalysisResults` interchange record). -/
structure AnalysisResults where
  seoScore : SEOResult
  serpScore : SERPResult
  aeoScore : AEOResult
  humanizationScore : HumanResult
  differentiationScore : DiffResult
  timestamp : List Char
deriving DecidableEq, Repr

/-- The two response shapes the handler can produce: a 200 JSON body
with the aggregate, or an error object `{error: message}` with an HTTP
status code. -/
inductive ServeResponse where
  | ok : AnalysisResults → ServeResponse
  | err : ℕ → List Char → ServeResponse
deriving DecidableEq, Repr

/-- The `serve` handler (part_002 lines 13–58) on a parsed analysis
request.  `apiKey` is `Deno.env.get("LOVABLE_API_KEY")`; when it is
absent the handler throws `"LOVABLE_API_KEY is not configured"`, which
the surrounding `catch` turns into a status-500 error object.  The two
external calls and the timestamp are parameters as above. -/
def handleRequest (apiKey : Option (List Char)) (content : List Char)
    (serpAI diffAI : Option (List Char)) (year : ℕ) (timestamp : List Char) :
    ServeResponse :=
  match apiKey with
  | none => .err 500 "LOVABLE_API_KEY is not configured".data
  | some _ =>
    .ok
      { seoScore := calculateSEOScore content
        serpScore := calculateSERPScore content serpAI
        aeoScore := calculateAEOScore content
        humanizationScore := calculateHumanizationScore content
        differentiationScore := calculateDifferentiationScore content diffAI year
        timestamp := timestamp }

/-- The concrete content used below to exercise all six SEO checks at
once: 145 one-letter words in a single unpunctuated sentence (average
words per sentence 145, so the readability estimate 59.66 is below 60;
no word is longer than 4 characters, so the keyword density is 0%). -/
def allFailContent : List Char := (List.replicate 145 "a ".data).flatten

/-! ## Helper lemmas -/

lemma seoRaw_bounds (c : List Char) : 20 ≤ seoRawScore c ∧ seoRawScore c ≤ 100 := by
  unfold seoRawScore; split_ifs <;> omega

lemma aeoRaw_bounds (c : List Char) : 40 ≤ aeoRawScore c ∧ aeoRawScore c ≤ 100 := by
  unfold aeoRawScore; split_ifs <;> omega

lemma humRaw_bounds (c : List Char) : 30 ≤ humRawScore c ∧ humRawScore c ≤ 100 := by
  unfold humRawScore; split_ifs <;> omega

lemma seoRecs_len (c : List Char) : (seoRecs c).length = seoFailedCount c := by
  unfold seoRecs seoFailedCount; split_ifs <;> rfl

lemma seoIssues_len (c : List Char) : (seoIssues c).length = seoFailedCount c := by
  unfold seoIssues seoFailedCount; split_ifs <;> rfl

lemma aeoRecs_len (c : List Char) : (aeoRecs c).length = aeoFailedCount c := by
  unfold aeoRecs aeoFailedCount; split_ifs <;> rfl

lemma aeoIssues_len (c : List Char) : (aeoIssues c).length = aeoFailedCount c := by
  unfold aeoIssues aeoFailedCount; split_ifs <;> rfl

lemma humRecs_len (c : List Char) : (humRecs c).length = humFailedCount c := by
  unfold humRecs humFailedCount; split_ifs <;> rfl

lemma humIssues_len (c : List Char) : (humIssues c).length = humFailedCount c := by
  unfold humIssues humFailedCount; split_ifs <;> rfl

lemma serpLocalRecs_len (c : List Char) :
    (serpLocalRecs c).length = serpFailedCount c := by
  unfold serpLocalRecs serpFailedCount; split_ifs <;> rfl

lemma serpLocalIssues_len (c : List Char) :
    (serpLocalIssues c).length = serpFailedCount c := by
  unfold serpLocalIssues serpFailedCount; split_ifs <;> rfl

lemma diffLocalRecs_len (y : ℕ) (c : List Char) :
    (diffLocalRecs y c).length = diffFailedCount y c := by
  unfold diffLocalRecs diffFailedCount; split_ifs <;> rfl

lemma diffLocalIssues_len (y : ℕ) (c : List Char) :
    (diffLocalIssues y c).length = diffFailedCount y c := by
  unfold diffLocalIssues diffFailedCount; split_ifs <;> rfl

lemma seo_rec_count (c : List Char) :
    (calculateSEOScore c).recommendations.length = min (seoFailedCount c) 5 := by
  show ((seoRecs c).take 5).length = _
  rw [List.length_take, seoRecs_len, Nat.min_comm]

lemma aeo_rec_count (c : List Char) :
    (calculateAEOScore c).recommendations.length = min (aeoFailedCount c) 5 := by
  show ((aeoRecs c).take 5).length = _
  rw [List.length_take, aeoRecs_len, Nat.min_comm]

lemma hum_rec_count (c : List Char) :
    (calculateHumanizationScore c).recommendations.length = min (humFailedCount c) 5 := by
  show ((humRecs c).take 5).length = _
  rw [List.length_take, humRecs_len, Nat.min_comm]

lemma serp_rec_count (c a : List Char) :
    (calculateSERPScore c (some a)).recommendations.length =
      min (serpFailedCount c + 1) 5 := by
  show ((serpLocalRecs c ++ [_]).take 5).length = _
  rw [List.length_take, List.length_append, serpLocalRecs_len, Nat.min_comm]
  rfl

lemma diff_rec_count (c a : List Char) (y : ℕ) :
    (calculateDifferentiationScore c (some a) y).recommendations.length =
      min (diffFailedCount y c + 1) 5 := by
  show ((diffLocalRecs y c ++ [_]).take 5).length = _
  rw [List.length_take, List.length_append, diffLocalRecs_len, Nat.min_comm]
  rfl

lemma serp_iss_count (c a : List Char) :
    (calculateSERPScore c (some a)).issues.length = serpFailedCount c + 1 := by
  show (serpLocalIssues c ++ [_]).length = _
  rw [List.length_append, serpLocalIssues_len]
  rfl

lemma diff_iss_count (c a : List Char) (y : ℕ) :
    (calculateDifferentiationScore c (some a) y).issues.length =
      diffFailedCount y c + 1 := by
  show (diffLocalIssues y c ++ [_]).length = _
  rw [List.length_append, diffLocalIssues_len]
  rfl

/-! ## Zero-sentence content has no passive-voice matches -/

lemma splitP_ne_nil (p : Char → Bool) (l : List Char) : splitP p l ≠ [] := by
  cases l with
  | nil => simp [splitP]
  | cons c r =>
    rw [splitP]
    split_ifs
    · simp
    · cases splitP p r <;> simp

lemma splitP_mem (p : Char → Bool) (ch : Char) (l : List Char) (hmem : ch ∈ l)
    (hp : p ch = false) : ∃ piece ∈ splitP p l, ch ∈ piece := by
  induction l with
  | nil => cases hmem
  | cons c r ih =>
    rw [splitP]
    by_cases hc : p c
    · rw [if_pos hc]
      rcases List.mem_cons.mp hmem with rfl | hr
      · rw [hp] at hc; cases hc
      · obtain ⟨piece, hpc, hin⟩ := ih hr
        exact ⟨piece, List.mem_cons_of_mem _ hpc, hin⟩
    · rw [if_neg hc]
      rcases hsp : splitP p r with _ | ⟨piece, rest⟩
      · exact absurd hsp (splitP_ne_nil p r)
      · rcases List.mem_cons.mp hmem with rfl | hr
        · exact ⟨ch :: piece, List.mem_cons_self _ _, List.mem_cons_self _ _⟩
        · obtain ⟨piece', hpc, hin⟩ := ih hr
          rw [hsp] at hpc
          rcases List.mem_cons.mp hpc with rfl | hrest
          · exact ⟨c :: piece', List.mem_cons_self _ _, List.mem_cons_of_mem _ hin⟩
          · exact ⟨piece', List.mem_cons_of_mem _ hrest, hin⟩

lemma mem_dropWhile_of_mem (s : Char → Bool) (ch : Char) (l : List Char)
    (hmem : ch ∈ l) (hs : s ch = false) : ch ∈ l.dropWhile s := by
  induction l with
  | nil => cases hmem
  | cons c r ih =>
    rw [List.dropWhile]
    rcases List.mem_cons.mp hmem with rfl | hr
    · rw [hs]; exact List.mem_cons_self _ _
    · by_cases hc : s c
      · rw [hc]; exact ih hr
      · rw [Bool.eq_false_iff.mpr hc]; exact List.mem_cons_of_mem _ hr

lemma trimJS_ne_nil_of_mem (ch : Char) (l : List Char) (h : ch ∈ l)
    (hsp : isJsSpace ch = false) : trimJS l ≠ [] := by
  intro hnil
  unfold trimJS at hnil
  rw [List.reverse_eq_nil_iff] at hnil
  have h1 : ch ∈ (l.dropWhile isJsSpace).reverse :=
    List.mem_reverse.mpr (mem_dropWhile_of_mem _ _ _ h hsp)
  have h2 := mem_dropWhile_of_mem _ _ _ h1 hsp
  rw [hnil] at h2
  cases h2

/-- If a string splits into no nonblank sentences, every character of
it is JS whitespace or a sentence separator. -/
lemma sentencesOf_chars (c : List Char) (h : sentencesOf c = []) :
    ∀ ch ∈ c, isJsSpace ch = true ∨ (ch == '.' || ch == '!' || ch == '?') = true := by
  intro ch hch
  by_contra hcon
  push_neg at hcon
  obtain ⟨hsp, hsep⟩ := hcon
  have hsp' : isJsSpace ch = false := Bool.eq_false_iff.mpr hsp
  have hsep' : (ch == '.' || ch == '!' || ch == '?') = false := Bool.eq_false_iff.mpr hsep
  obtain ⟨piece, hpmem, hin⟩ :=
    splitP_mem (fun c => c == '.' || c == '!' || c == '?') ch c hch hsep'
  have htr : trimJS piece ≠ [] := trimJS_ne_nil_of_mem ch piece hin hsp' 
  have : piece ∈ sentencesOf c := by
    unfold sentencesOf
    exact List.mem_filter.mpr ⟨hpmem, by simpa using htr⟩
  rw [h] at this
  cases this

lemma passAt_none (c : Char) (r : List Char) (hw : c ≠ 'w') (hb : c ≠ 'b') :
    passAt (c :: r) = none := by
  simp [passAt, litAt, Ne.symm hw, Ne.symm hb]

lemma passCountAux_zero (fuel : ℕ) :
    ∀ (prev : Option Char) (l : List Char),
      (∀ ch ∈ l, ch ≠ 'w' ∧ ch ≠ 'b') → passCountAux fuel prev l = 0 := by
  induction fuel with
  | zero => intro prev l _; cases l <;> rfl
  | succ f ih =>
    intro prev l h
    cases l with
    | nil => rfl
    | cons c r =>
      have hc := h c (List.mem_cons_self _ _)
      have hrest : ∀ ch ∈ r, ch ≠ 'w' ∧ ch ≠ 'b' :=
        fun ch hm => h ch (List.mem_cons_of_mem _ hm)
      simp [passCountAux, passAt_none c r hc.1 hc.2, ih _ _ hrest]

lemma toLowerJS_not_wb (x : Char)
    (h : isJsSpace x = true ∨ (x == '.' || x == '!' || x == '?') = true) :
    toLowerJS x ≠ 'w' ∧ toLowerJS x ≠ 'b' := by
  unfold toLowerJS
  split_ifs with hcase
  · exfalso
    rcases h with hs | hp
    · have := of_decide_eq_true hs
      omega
    · rw [Bool.or_eq_true, Bool.or_eq_true] at hp
      rcases hp with (hp | hp) | hp <;>
        · have := of_decide_eq_true hp
          subst this
          exact absurd hcase (by decide)
  · constructor <;> rintro rfl
    · rcases h with hs | hp
      · exact absurd hs (by decide)
      · exact absurd hp (by decide)
    · rcases h with hs | hp
      · exact absurd hs (by decide)
      · exact absurd hp (by decide)

/-- Content with no nonblank sentence has no passive-voice matches
(the pattern needs a word starting with `w` or `b`). -/
lemma passiveCountOf_zero (c : List Char) (h : sentencesOf c = []) :
    passiveCountOf c = 0 := by
  apply passCountAux_zero
  intro ch hch
  obtain ⟨x, hx, rfl⟩ := List.mem_map.mp hch
  exact toLowerJS_not_wb x (sentencesOf_chars c h x hx)

/-! ## The claims -/

/-- C1: for every content string, each synchronous analyzer (SEO, AEO,
Humanization) returns a score that is the integer `max(0, 100 - Σ
fixed penalties of the failing checks)`, hence lies in `[0, 100]` and
is never negative. -/
theorem sync_analyzer_score_in_range (c : List Char) :
    ((calculateSEOScore c).score = max 0 (seoRawScore c) ∧
      0 ≤ (calculateSEOScore c).score ∧ (calculateSEOScore c).score ≤ 100) ∧
    ((calculateAEOScore c).score = max 0 (aeoRawScore c) ∧
      0 ≤ (calculateAEOScore c).score ∧ (calculateAEOScore c).score ≤ 100) ∧
    ((calculateHumanizationScore c).score = max 0 (humRawScore c) ∧
      0 ≤ (calculateHumanizationScore c).score ∧
      (calculateHumanizationScore c).score ≤ 100) := by
  refine ⟨⟨rfl, ?_, ?_⟩, ⟨rfl, ?_, ?_⟩, ⟨rfl, ?_, ?_⟩⟩
  · exact le_max_left _ _
  · exact max_le (by norm_num) (seoRaw_bounds c).2
  · exact le_max_left _ _
  · exact max_le (by norm_num) (aeoRaw_bounds c).2
  · exact le_max_left _ _
  · exact max_le (by norm_num) (humRaw_bounds c).2

/-- C2: when the external call fails (`none`), the SERP analyzer
returns exactly the documented fallback record (score 50, rank
"Unknown") and the Differentiation analyzer exactly its fallback
(score 60); the failure is consumed by the analyzer, which still
returns an ordinary result. -/
theorem ai_analyzer_fallback_exact (c : List Char) (y : ℕ) :
    calculateSERPScore c none =
      { score := 50
        issues := ["Unable to perform full SERP analysis".data]
        recommendations := ["Ensure content is comprehensive and well-researched".data]
        predictedRank := "Unknown".data } ∧
    calculateDifferentiationScore c none y =
      { score := 60
        issues := ["Unable to perform full uniqueness analysis".data]
        recommendations := ["Add unique examples, stories, and perspectives".data] } :=
  ⟨rfl, rfl⟩

/-- C3 counterexample: on the SERP analyzer's success path the AI
commentary pair is appended beyond the failed checks, so on empty
content (3 failed local checks) the recommendation count is 4, not
`min(3, 5)`. -/
theorem serp_rec_count_neq_min_failed :
    (calculateSERPScore [] (some [])).recommendations.length ≠
      min (serpFailedCount []) 5 := by decide

/-- C3 amended: for the synchronous analyzers
`recommendations.length = min(failedChecks, 5)`; for the AI-assisted
analyzers the unconditional AI pair adds one entry on success
(`min(failedChecks + 1, 5)`), and the fallback has exactly one
recommendation. -/
theorem rec_count_law :
    (∀ c : List Char,
      (calculateSEOScore c).recommendations.length = min (seoFailedCount c) 5 ∧
      (calculateAEOScore c).recommendations.length = min (aeoFailedCount c) 5 ∧
      (calculateHumanizationScore c).recommendations.length =
        min (humFailedCount c) 5) ∧
    (∀ c a : List Char,
      (calculateSERPScore c (some a)).recommendations.length =
        min (serpFailedCount c + 1) 5) ∧
    (∀ c : List Char, (calculateSERPScore c none).recommendations.length = 1) ∧
    (∀ (c a : List Char) (y : ℕ),
      (calculateDifferentiationScore c (some a) y).recommendations.length =
        min (diffFailedCount y c + 1) 5) ∧
    (∀ (c : List Char) (y : ℕ),
      (calculateDifferentiationScore c none y).recommendations.length = 1) :=
  ⟨fun c => ⟨seo_rec_count c, aeo_rec_count c, hum_rec_count c⟩,
   serp_rec_count, fun _ => rfl, fun c a y => diff_rec_count c a y, fun _ _ => rfl⟩

/-- C5: without the credential the handler returns the status-500
error object with the human-readable message and no result record;
with any credential present it returns the structurally complete
aggregate of all five analyzer results. -/
theorem missing_credential_top_level_error (c : List Char)
    (s d : Option (List Char)) (y : ℕ) (t : List Char) :
    handleRequest none c s d y t =
      .err 500 "LOVABLE_API_KEY is not configured".data ∧
    ∀ k : List Char, handleRequest (some k) c s d y t =
      .ok { seoScore := calculateSEOScore c
            serpScore := calculateSERPScore c s
            aeoScore := calculateAEOScore c
            humanizationScore := calculateHumanizationScore c
            differentiationScore := calculateDifferentiationScore c d y
            timestamp := t } :=
  ⟨rfl, fun _ => rfl⟩

/-- C6: on a successful external call the SERP result decomposes into
exactly the three local checks (word count < 1000 → −20, no numeric
statistics → −15, no citation phrasing → −10), one appended AI
commentary issue/recommendation pair, and a `predictedRank` that is
the two-tier label of the 1500-word threshold — independent of the AI
reply text. -/
theorem serp_success_decomposition (c a : List Char) :
    calculateSERPScore c (some a) =
      { score := max 0 (100 - (if serpShort c then 20 else 0)
          - (if serpNoNumbers c then 15 else 0)
          - (if serpNoCitations c then 10 else 0))
        issues := serpLocalIssues c ++ ["AI analysis: ".data ++ a.take 100]
        recommendations := (serpLocalRecs c ++
          ["Review AI-generated insights for detailed SERP optimization".data]).take 5
        predictedRank :=
          if 1500 < serpWordCount c then "Page 1 potential".data
          else "Page 2-3".data } ∧
    (calculateSERPScore c (some a)).issues.length = serpFailedCount c + 1 ∧
    (∀ a' : List Char, (calculateSERPScore c (some a')).predictedRank =
      (calculateSERPScore c (some a)).predictedRank) :=
  ⟨rfl, serp_iss_count c a, fun _ => rfl⟩

/-- C7 counterexample: empty content has no FAQ/list/how-to/definition
patterns, yet its average paragraph length is `NaN` (`0/0`), so the
paragraph-length check does not fire: only 4 checks fail and only 4
recommendations are produced, not 5 (the score bound 55 does hold). -/
theorem aeo_empty_four_recs :
    aeoNoFAQ [] = true ∧ aeoFewLists [] = true ∧ aeoNoHowTo [] = true ∧
      aeoNoDefinitions [] = true ∧
      (calculateAEOScore []).score ≤ 55 ∧
      (calculateAEOScore []).recommendations.length = 4 := by decide

/-- C7 amended: content with no FAQ phrasing, fewer than 3 structured
list lines, no how-to phrasing and no definition phrasing gets an AEO
score ≤ 55 and exactly 4 recommendations — 5 exactly when the
paragraph-length check also fails. -/
theorem aeo_no_pattern_score (c : List Char)
    (h1 : aeoNoFAQ c = true) (h2 : aeoFewLists c = true)
    (h3 : aeoNoHowTo c = true) (h4 : aeoNoDefinitions c = true) :
    (calculateAEOScore c).score ≤ 55 ∧
    (calculateAEOScore c).recommendations.length =
      (if aeoLongParas c then 5 else 4) := by
  constructor
  · show max 0 (aeoRawScore c) ≤ 55
    unfold aeoRawScore
    cases hl : aeoLongParas c <;> simp [h1, h2, h3, h4, hl]
  · rw [aeo_rec_count]
    unfold aeoFailedCount
    cases hl : aeoLongParas c <;> simp [h1, h2, h3, h4, hl]

/-- C7 witness: the amended statement applied at empty content. -/
theorem aeo_no_pattern_score_witness :
    (aeoNoFAQ [] = true ∧ aeoFewLists [] = true ∧ aeoNoHowTo [] = true ∧
      aeoNoDefinitions [] = true) ∧
    ((calculateAEOScore []).score ≤ 55 ∧
      (calculateAEOScore []).recommendations.length =
        (if aeoLongParas [] then 5 else 4)) :=
  ⟨⟨by decide, by decide, by decide, by decide⟩,
   aeo_no_pattern_score [] (by decide) (by decide) (by decide) (by decide)⟩

/-- C8: the synchronous analyzers are pure functions of the text — two
calls on identical input give identical results, and each is computed
from the content alone (no analyzer reads another's output). -/
theorem sync_analyzer_deterministic (c : List Char) :
    calculateSEOScore c = calculateSEOScore c ∧
    calculateAEOScore c = calculateAEOScore c ∧
    calculateHumanizationScore c = calculateHumanizationScore c :=
  ⟨rfl, rfl, rfl⟩

/-- C9: the total penalties are bounded below 100 (SEO 80, AEO 60,
Humanization 70), so the scores are at least 20, 40 and 30
respectively and the `max(0, score)` floor never changes the computed
value. -/
theorem penalty_totals_bounded (c : List Char) :
    (calculateSEOScore c).score = seoRawScore c ∧
      20 ≤ (calculateSEOScore c).score ∧
    (calculateAEOScore c).score = aeoRawScore c ∧
      40 ≤ (calculateAEOScore c).score ∧
    (calculateHumanizationScore c).score = humRawScore c ∧
      30 ≤ (calculateHumanizationScore c).score := by
  have hs := (seoRaw_bounds c).1
  have ha := (aeoRaw_bounds c).1
  have hh := (humRaw_bounds c).1
  have es : (calculateSEOScore c).score = seoRawScore c :=
    max_eq_right (le_trans (by norm_num) hs)
  have ea : (calculateAEOScore c).score = aeoRawScore c :=
    max_eq_right (le_trans (by norm_num) ha)
  have eh : (calculateHumanizationScore c).score = humRawScore c :=
    max_eq_right (le_trans (by norm_num) hh)
  exact ⟨es, es ▸ hs, ea, ea ▸ ha, eh, eh ▸ hh⟩

/-- C4 counterexample: on empty content no division error occurs (JS
division never throws), but the ratio-derived metrics are the string
`"NaN"` / the value `NaN` — not a defined neutral sentinel. -/
theorem ratio_metrics_nan_on_empty :
    (calculateSEOScore []).metrics.keywordDensity = "NaN%".data ∧
    (calculateSEOScore []).metrics.readabilityScore = "NaN".data ∧
    (calculateHumanizationScore []).metrics.sentenceVarietyVariance = JSNum.nan ∧
    (calculateHumanizationScore []).metrics.passiveVoice = "NaN%".data := by
  decide

/-- C4 amended: for content with zero words, zero sentences and zero
nonblank paragraphs the analyzers still return (no division error is
possible), but keyword density, readability, sentence-length variance
and passive-voice percentage are all `NaN` rather than a sentinel; the
`NaN` comparisons make the corresponding checks fail closed (no
penalty).  The AEO paragraph-length ratio is `NaN` only for literally
empty content — for nonempty all-blank content it is `Infinity` and
the check fires. -/
theorem zero_denominator_behavior (c : List Char)
    (hw : seoWords c = []) (hs : sentencesOf c = [])
    (hp : aeoParagraphs c = []) :
    (calculateSEOScore c).metrics.keywordDensity = "NaN%".data ∧
    (calculateSEOScore c).metrics.readabilityScore = "NaN".data ∧
    seoDensityBad c = false ∧ seoReadabilityLow c = false ∧
    (calculateHumanizationScore c).metrics.sentenceVarietyVariance = JSNum.nan ∧
    (calculateHumanizationScore c).metrics.passiveVoice = "NaN%".data ∧
    humLowVariety c = false ∧ humHighPassive c = false ∧
    aeoAvgParagraphLength c = (if c.length = 0 then JSNum.nan else JSNum.inf) ∧
    aeoLongParas c = decide (c.length ≠ 0) := by
  have hkc : seoKeywordCount c = 0 := by
    unfold seoKeywordCount seoSorted seoWordFreq
    rw [hw]
    rfl
  have hkd : seoKeywordDensity c = .nan := by
    unfold seoKeywordDensity
    rw [hkc, hw]
    decide
  have hav : seoAvgWordsPerSentence c = .nan := by
    unfold seoAvgWordsPerSentence
    rw [hw, hs]
    decide
  have hrd : seoReadability c = .nan := by
    unfold seoReadability
    rw [hav]
    decide
  have hsl : humSentenceLengths c = [] := by
    unfold humSentenceLengths humSentences
    rw [hs]
    rfl
  have havg : humAvgLength c = .nan := by
    unfold humAvgLength
    rw [hsl]
    decide
  have hvar : humVariance c = .nan := by
    unfold humVariance
    rw [havg]
  have hpc : humPassiveCount c = 0 := passiveCountOf_zero c hs
  have hpp : humPassivePct c = .nan := by
    unfold humPassivePct humSentences
    rw [hpc, hs]
    decide
  have hpa : aeoAvgParagraphLength c = (if c.length = 0 then JSNum.nan else JSNum.inf) := by
    unfold aeoAvgParagraphLength
    rw [hp]
    by_cases h0 : c.length = 0
    · rw [h0, if_pos rfl]
      decide
    · rw [if_neg h0]
      unfold jsDiv
      have hb0 : qOfNat 0 = 0 := by decide
      have ha0 : ¬qOfNat c.length = 0 := by
        unfold qOfNat
        rw [Rat.mkRat_eq_div]
        push_cast
        rw [div_one]
        exact_mod_cast h0
      have hapos : (0 : ℚ) < qOfNat c.length := by
        unfold qOfNat
        rw [Rat.mkRat_eq_div]
        push_cast
        rw [div_one]
        exact_mod_cast Nat.pos_of_ne_zero h0
      simp [hb0, ha0, hapos]
  refine ⟨?_, ?_, ?_, ?_, ?_, ?_, ?_, ?_, hpa, ?_⟩
  · show jsToFixed 2 (seoKeywordDensity c) ++ "%".data = _
    rw [hkd]
    decide
  · show jsToFixed 0 (seoReadability c) = _
    rw [hrd]
    decide
  · unfold seoDensityBad
    rw [hkd]
    decide
  · unfold seoReadabilityLow
    rw [hrd]
    decide
  · show humVariance c = _
    exact hvar
  · show jsToFixed 0 (humPassivePct c) ++ "%".data = _
    rw [hpp]
    decide
  · unfold humLowVariety
    rw [hvar]
    decide
  · unfold humHighPassive
    rw [hpp]
    decide
  · unfold aeoLongParas
    rw [hpa]
    by_cases h0 : c.length = 0 <;> simp [h0, JSNum.gtQ]

/-- C4 witness: the amended statement applied at empty content. -/
theorem zero_denominator_behavior_witness :
    (seoWords [] = [] ∧ sentencesOf [] = [] ∧ aeoParagraphs [] = []) ∧
    ((calculateSEOScore []).metrics.keywordDensity = "NaN%".data ∧
      (calculateSEOScore []).metrics.readabilityScore = "NaN".data ∧
      seoDensityBad [] = false ∧ seoReadabilityLow [] = false ∧
      (calculateHumanizationScore []).metrics.sentenceVarietyVariance = JSNum.nan ∧
      (calculateHumanizationScore []).metrics.passiveVoice = "NaN%".data ∧
      humLowVariety [] = false ∧ humHighPassive [] = false ∧
      aeoAvgParagraphLength [] =
        (if ([] : List Char).length = 0 then JSNum.nan else JSNum.inf) ∧
      aeoLongParas [] = decide (([] : List Char).length ≠ 0)) :=
  ⟨⟨by decide, by decide, by decide⟩,
   zero_denominator_behavior [] (by decide) (by decide) (by decide)⟩

set_option maxRecDepth 1000000 in
/-- C10: the issues list is never truncated — its length is the number
of entries appended (one per failed check, plus the AI commentary
entry on a successful external call), it is always at least the
recommendation count, and on a content failing all six SEO checks it
reaches 6 issues against 5 recommendations. -/
theorem issues_never_truncated :
    (∀ c : List Char,
      (calculateSEOScore c).issues.length = seoFailedCount c ∧
      (calculateAEOScore c).issues.length = aeoFailedCount c ∧
      (calculateHumanizationScore c).issues.length = humFailedCount c ∧
      (calculateSEOScore c).recommendations.length ≤
        (calculateSEOScore c).issues.length ∧
      (calculateAEOScore c).recommendations.length ≤
        (calculateAEOScore c).issues.length ∧
      (calculateHumanizationScore c).recommendations.length ≤
        (calculateHumanizationScore c).issues.length) ∧
    (∀ c a : List Char,
      (calculateSERPScore c (some a)).issues.length = serpFailedCount c + 1 ∧
      (calculateSERPScore c (some a)).recommendations.length ≤
        (calculateSERPScore c (some a)).issues.length) ∧
    (∀ c : List Char, (calculateSERPScore c none).issues.length = 1 ∧
      (calculateSERPScore c none).recommendations.length = 1) ∧
    (∀ (c a : List Char) (y : ℕ),
      (calculateDifferentiationScore c (some a) y).issues.length =
        diffFailedCount y c + 1 ∧
      (calculateDifferentiationScore c (some a) y).recommendations.length ≤
        (calculateDifferentiationScore c (some a) y).issues.length) ∧
    (∀ (c : List Char) (y : ℕ),
      (calculateDifferentiationScore c none y).issues.length = 1 ∧
      (calculateDifferentiationScore c none y).recommendations.length = 1) ∧
    ((calculateSEOScore allFailContent).issues.length = 6 ∧
      (calculateSEOScore allFailContent).recommendations.length = 5) := by
  refine ⟨fun c => ⟨?_, ?_, ?_, ?_, ?_, ?_⟩, fun c a => ⟨?_, ?_⟩,
    fun c => ⟨rfl, rfl⟩, fun c a y => ⟨?_, ?_⟩, fun c y => ⟨rfl, rfl⟩, ?_, ?_⟩
  · exact seoIssues_len c
  · exact aeoIssues_len c
  · exact humIssues_len c
  · rw [seo_rec_count,
      show (calculateSEOScore c).issues.length = seoFailedCount c from seoIssues_len c]
    exact Nat.min_le_left _ _
  · rw [aeo_rec_count,
      show (calculateAEOScore c).issues.length = aeoFailedCount c from aeoIssues_len c]
    exact Nat.min_le_left _ _
  · rw [hum_rec_count,
      show (calculateHumanizationScore c).issues.length = humFailedCount c from
        humIssues_len c]
    exact Nat.min_le_left _ _
  · exact serp_iss_count c a
  · rw [serp_rec_count, serp_iss_count]; exact Nat.min_le_left _ _
  · exact diff_iss_count c a y
  · rw [diff_rec_count, diff_iss_count]; exact Nat.min_le_left _ _
  · decide
  · decide
